import Mathlib

/-!
Verification development for the jasmin-api console protocol engine.

The definitions below are a shallow embedding of the Python source:
`rest_api/tools.py` (set_ikeys, sync_conf_instances), the route creation
views `rest_api/views/morouter.py` / `mtrouter.py`, the group listing in
`rest_api/views/groups.py`, and the connection middleware
`rest_api/middleware.py`.  Strings are modelled as `List Char` (with
`String` wrappers), matching Python `str` operations character by
character; pexpect `expect` over an ordered pattern list is modelled as
the ordered first-match classifier `classify` (all patterns in these
rule sets begin with `.*`/`(.*)`, so every matching pattern matches at
buffer position 0 and pexpect's earliest-position tie-break coincides
with list order).  Python regular-expression patterns are compiled by
pexpect with DOTALL; each concrete pattern shape used by the source is
embedded as an executable greedy matcher below.
-/

namespace JasminApi

/-! ### Python string primitives on `List Char` -/

/-- Python `str.strip()` with no argument: drop whitespace from both ends. -/
def chStrip (l : List Char) : List Char :=
  ((l.dropWhile Char.isWhitespace).reverse.dropWhile Char.isWhitespace).reverse

/-- Worker for `chSplitWS`: `cur` holds the current word, reversed. -/
def chSplitWSGo (cur : List Char) : List Char → List (List Char)
  | [] => if cur.isEmpty then [] else [cur.reverse]
  | c :: cs =>
    if c.isWhitespace then
      if cur.isEmpty then chSplitWSGo [] cs else cur.reverse :: chSplitWSGo [] cs
    else chSplitWSGo (c :: cur) cs

/-- Python `str.split()` with no argument: split on whitespace runs, dropping
empty pieces. -/
def chSplitWS (l : List Char) : List (List Char) := chSplitWSGo [] l

/-- Python `sep.join(pieces)` (for a list-of-chars separator). -/
def chIntercalate (sep : List Char) : List (List Char) → List Char
  | [] => []
  | [x] => x
  | x :: xs => x ++ sep ++ chIntercalate sep xs

/-- Python `str.split(sep)` for a single-character separator: keeps empty
pieces, and yields `[""]` on the empty string. -/
def chSplitChar (sep : Char) : List Char → List (List Char)
  | [] => [[]]
  | c :: cs =>
    let r := chSplitChar sep cs
    if c = sep then [] :: r
    else
      match r with
      | [] => [[c]]
      | h :: t => (c :: h) :: t

/-- Python `str.strip()` on `String`. -/
def pyStrip (s : String) : String := ⟨chStrip s.data⟩

/-- Python `" ".join(s.split())`: collapse internal whitespace runs to single
spaces and remove surrounding whitespace. -/
def collapseWS (s : String) : String := ⟨chIntercalate [' '] (chSplitWS s.data)⟩

/-- Python `str.lower()`. -/
def pyLower (s : String) : String := ⟨s.data.map Char.toLower⟩

/-! ### Substring search -/

/-- `pat` occurs in `buf` starting at index `i`. -/
def chOccursAt (pat buf : List Char) (i : Nat) : Bool :=
  pat.isPrefixOf (buf.drop i)

/-- Largest `i ≤ n` with `p i`, if any. -/
def lastSat : Nat → (Nat → Bool) → Option Nat
  | 0, p => if p 0 then some 0 else none
  | n + 1, p => if p (n + 1) then some (n + 1) else lastSat n p

/-- Worker for `firstSat`. -/
def firstSatAux : Nat → Nat → (Nat → Bool) → Option Nat
  | 0, i, p => if p i then some i else none
  | f + 1, i, p => if p i then some i else firstSatAux f (i + 1) p

/-- Smallest `i ≤ n` with `p i`, if any. -/
def firstSat (n : Nat) (p : Nat → Bool) : Option Nat := firstSatAux n 0 p

/-- Some `i ≤ n` satisfies `p`. -/
def existsLe (n : Nat) (p : Nat → Bool) : Bool := (lastSat n p).isSome

/-- `prompt` occurs in `buf` at some index `≥ k`. -/
def promptAfter (prompt buf : List Char) (k : Nat) : Bool :=
  existsLe buf.length (fun j => decide (k ≤ j) && chOccursAt prompt buf j)

/-! ### Embedded regular-expression rules

Each definition embeds one concrete pattern shape used by the source, under
Python `re.search` with DOTALL (the pexpect default), with greedy `.*`. -/

/-- A classifier rule: returns the captured group-1 text on a match. -/
def ChRule := List Char → Option (List Char)

/-- Embeds `.*(LIT.*)PROMPT`: the leading greedy `.*` puts the capture at the
last occurrence of `LIT` that is still followed by `PROMPT`; the inner greedy
`.*` extends the capture to the last following occurrence of `PROMPT`. -/
def ruleTail (lit prompt : List Char) : ChRule := fun buf =>
  match lastSat buf.length
      (fun i => chOccursAt lit buf i && promptAfter prompt buf (i + lit.length)) with
  | none => none
  | some i =>
    match lastSat buf.length
        (fun j => decide (i + lit.length ≤ j) && chOccursAt prompt buf j) with
    | none => none
    | some j => some ((buf.drop i).take (j - i))

/-- Embeds `(.*)LIT.*PROMPT`: the greedy capture runs from the start of the
buffer to the last occurrence of `LIT` that is still followed by `PROMPT`. -/
def ruleHead (lit prompt : List Char) : ChRule := fun buf =>
  match lastSat buf.length
      (fun i => chOccursAt lit buf i && promptAfter prompt buf (i + lit.length)) with
  | none => none
  | some i => some (buf.take i)

/-- Embeds the catch-all `(.*)PROMPT`: the greedy capture runs to the last
occurrence of `PROMPT`. -/
def ruleAll (prompt : List Char) : ChRule := fun buf =>
  match lastSat buf.length (fun j => chOccursAt prompt buf j) with
  | none => none
  | some j => some (buf.take j)

/-- Embeds `.*PROMPT` (no capture group is read from this rule). -/
def ruleAny (prompt : List Char) : ChRule := fun buf =>
  if existsLe buf.length (fun j => chOccursAt prompt buf j) then some [] else none

/-- Embeds `ok(.* syntax is invalid).*PROMPT` from the set_ikeys commit step:
`re.search` picks the leftmost viable `ok`, then the greedy group extends to
the last viable occurrence of `" syntax is invalid"`. -/
def ruleCommitFail (prompt : List Char) : ChRule := fun buf =>
  let lit := " syntax is invalid".toList
  let viable := fun i =>
    chOccursAt lit buf i && promptAfter prompt buf (i + lit.length)
  match firstSat buf.length (fun p =>
      chOccursAt "ok".toList buf p &&
      existsLe buf.length (fun i => decide (p + 2 ≤ i) && viable i)) with
  | none => none
  | some p =>
    match lastSat buf.length (fun i => decide (p + 2 ≤ i) && viable i) with
    | none => none
    | some i => some ((buf.drop (p + 2)).take (i + lit.length - (p + 2)))

/-- Embeds `LIT(.+)\nPROMPT` (match test only; used for the
`Adding a new MO/MT Route` expectation after `morouter -a`/`mtrouter -a`). -/
def addingMatches (lit prompt buf : List Char) : Bool :=
  existsLe buf.length (fun p =>
    chOccursAt lit buf p &&
    existsLe buf.length (fun j =>
      decide (p + lit.length + 1 ≤ j) && chOccursAt ('\n' :: prompt) buf j))

/-! ### The ordered classifier (pexpect `expect` over a pattern list) -/

/-- Ordered first-match classification: the index and capture of the first
rule in the list that matches the buffer. -/
def classify : List ChRule → List Char → Option (Nat × List Char)
  | [], _ => none
  | r :: rs, buf =>
    match r buf with
    | some c => some (0, c)
    | none => (classify rs buf).map (fun p => (p.1 + 1, p.2))

/-! ### Prompts (settings.py) -/

/-- `settings.STANDARD_PROMPT = 'jcli : '`. -/
def STANDARD_PROMPT : List Char := "jcli : ".toList

/-- `settings.INTERACTIVE_PROMPT = '> '`. -/
def INTERACTIVE_PROMPT : List Char := "> ".toList

/-! ### `set_ikeys` (tools.py, lines 15-46)

The interactive key-submission dialogue.  A telnet session is modelled by
the list of lines sent (`sendline`) and a queue of canned reply buffers, one
consumed per `expect` call.  An `expect` whose classification finds no
matching rule (pexpect TIMEOUT/EOF) is `expectFailed`. -/

/-- Outcome of `set_ikeys`.  The constructors mirror the exception raised:
`UnknownError`, `CanNotModifyError`, `JasminSyntaxError` (the latter is
raised at two distinct sites — a key step, line 35, and the commit step,
line 44 — distinguished here by constructor). -/
inductive IkeysOutcome
  | success
  | unknownError (detail : String)
  | canNotModifyError (detail : String)
  | jasminSyntaxError (detail : String)
  | commitSyntaxError (detail : String)
  | expectFailed
deriving DecidableEq

/-- The ordered rule set of the per-key `telnet.expect` call
(tools.py lines 22-28). -/
def setIkeysRules : List ChRule := [
  ruleTail "Unknown ".toList INTERACTIVE_PROMPT,
  ruleHead " can not be modified".toList INTERACTIVE_PROMPT,
  ruleAll INTERACTIVE_PROMPT,
  ruleTail "Unknown SMPPClientConfig key:".toList INTERACTIVE_PROMPT,
  ruleTail "Error:".toList STANDARD_PROMPT ]

/-- The ordered rule set of the commit-step `telnet.expect` call
(tools.py lines 38-41). -/
def commitRules : List ChRule := [
  ruleCommitFail INTERACTIVE_PROMPT,
  ruleAny STANDARD_PROMPT ]

/-- The line sent for one key/value pair: `f"{key} {val}"`. -/
def keyLine (k v : String) : String := k ++ " " ++ v

/-- One run of the `set_ikeys` loop plus commit.  Returns the outcome, the
lines sent, and the reply buffers left unconsumed. -/
def setIkeysGo : List (String × String) → List (List Char) →
    IkeysOutcome × List String × List (List Char)
  | [], replies =>
    -- telnet.sendline('ok'); ok_index = telnet.expect([...])
    match replies with
    | [] => (.expectFailed, ["ok"], [])
    | buf :: more =>
      match classify commitRules buf with
      | none => (.expectFailed, ["ok"], more)
      | some (i, c) =>
        if i = 0 then (.commitSyntaxError (collapseWS ⟨c⟩), ["ok"], more)
        else (.success, ["ok"], more)
  | (k, v) :: rest, replies =>
    let line := keyLine k v
    match replies with
    | [] => (.expectFailed, [line], [])
    | buf :: more =>
      match classify setIkeysRules buf with
      | none => (.expectFailed, [line], more)
      | some (i, c) =>
        let result := pyStrip ⟨c⟩
        if i = 0 then (.unknownError result, [line], more)
        else if i = 1 then (.canNotModifyError result, [line], more)
        else if i = 3 ∨ i = 4 then (.jasminSyntaxError (collapseWS result), [line], more)
        else
          -- matched_index == 2 (or any other index): the loop continues
          let (o, sent, left) := setIkeysGo rest more
          (o, line :: sent, left)

/-- `set_ikeys(telnet, keys2vals)` over canned replies: outcome and sent lines. -/
def setIkeysRun (keys : List (String × String)) (replies : List (List Char)) :
    IkeysOutcome × List String :=
  ((setIkeysGo keys replies).1, (setIkeysGo keys replies).2.1)

/-! ### `sync_conf_instances` (tools.py, lines 63-74)

Each replica session is modelled by a `Bool`: whether its
`expect(r'.*' + STANDARD_PROMPT)` after `sendline('load\n')` succeeds.  The
`try/except` catches every exception, logs it, and continues with the next
replica; the function always returns. -/

/-- One replica reload round-trip: raises (as `.error`) when the expect
fails with a pexpect timeout/EOF. -/
def reloadReplica (ok : Bool) : Except String Unit :=
  if ok then .ok () else .error "pexpect timeout or EOF"

/-- `sync_conf_instances(telnet_list)`: returns the lines sent (one
`'load\n'` per replica, failed or not) and the log records of the caught
per-replica failures.  Total: every exception is caught in the loop body. -/
def syncConfInstances : List Bool → List String × List String
  | [] => ([], [])
  | r :: rs =>
    let (sent, logs) := syncConfInstances rs
    match reloadReplica r with
    | .ok _ => ("load\n" :: sent, logs)
    | .error e => ("load\n" :: sent, ("Error syncing configuration: " ++ e) :: logs)

/-- A caller of `sync_conf_instances` after a successful primary mutation and
persist: the replica propagation result never touches the success payload
(morouter.py line 166-169, mtrouter.py line 205-208, groups.py line 75-77). -/
def propagateAfterSuccess {α : Type} (payload : α) (replicas : List Bool) :
    α × (List String × List String) :=
  (payload, syncConfInstances replicas)

/-! ### Route creation (morouter.py `create`, mtrouter.py `create`)

Request bodies are records of the fields the handlers read; a `data.get`
with a `''` default is a plain `String`, a `data[...]` access that can raise
`KeyError`/`MultiValueDictKeyError` is an `Option`.  Each run returns the
handler outcome and the list of lines sent over the session.  The trailing
read-back (`get_router`, which only runs after the mutation fully succeeded)
is not modelled; the success constructor marks reaching it. -/

/-- Outcome of a route-creation handler.  Constructors mirror the raised
exception classes; `multipleValuesRequiredKeyError` is the class spelled
`MutipleValuesRequiredKeyError` at its morouter.py import site. -/
inductive CreateOutcome
  | success
  | missingKeyError (msg : String)
  | multipleValuesRequiredKeyError (msg : String)
  | invalidRate (msg : String)
  | ikeysAbort (o : IkeysOutcome)
  | expectFailed
deriving DecidableEq

/-- `[f'{tag}({c.strip()})' for c in s.split(',') if c.strip()]`. -/
def connectorItems (tag : String) (s : String) : List String :=
  (chSplitChar ',' s.data).filterMap (fun c =>
    let t := chStrip c
    if t.isEmpty then none else some (tag ++ "(" ++ ⟨t⟩ ++ ")"))

/-- MO connector composites: `smpps(...)` ++ `http(...)`
(morouter.py lines 147-148). -/
def moConnectors (smppconnectors httpconnectors : String) : List String :=
  connectorItems "smpps" smppconnectors ++ connectorItems "http" httpconnectors

/-- MT connector composites: `smppc(...)` ++ `http(...)`
(mtrouter.py lines 178-182). -/
def mtConnectors (smppconnectors httpconnectors : String) : List String :=
  connectorItems "smppc" smppconnectors ++ connectorItems "http" httpconnectors

/-- `';'.join(l)`. -/
def joinSemi (l : List String) : String :=
  ⟨chIntercalate [';'] (l.map String.data)⟩

/-- MO filters: `';'.join(data['filters'].split(','))` — no per-item
trimming, empty items kept (morouter.py line 140). -/
def moFilterJoin (filters : String) : String :=
  ⟨chIntercalate [';'] (chSplitChar ',' filters.data)⟩

/-- MT filters: `';'.join([f.strip() for f in data['filters'].split(',')])`
— per-item trimming, empty items kept (mtrouter.py line 172). -/
def mtFilterJoin (filters : String) : String :=
  ⟨chIntercalate [';'] ((chSplitChar ',' filters.data).map chStrip)⟩

/-- The fields read by `MORouterViewSet.create`. -/
structure MORequest where
  type? : Option String
  order? : Option String
  filters? : Option String
  smppconnectors : String
  httpconnectors : String

/-- The fields read by `MTRouterViewSet.create`; `rate?` is the raw string
handed to Python `float`. -/
structure MTRequest where
  type? : Option String
  order? : Option String
  rate? : Option String
  filters? : Option String
  smppconnectors : String
  httpconnectors : String

/-- Python `float(s)` acceptance, restricted to the plain decimal grammar
`[+-]? (digits [. digits*]? | . digits+)` after stripping; exponent and
inf/nan forms are outside the inputs these handlers are evaluated on. -/
def isFloatBody (l : List Char) : Bool :=
  let intPart := l.takeWhile Char.isDigit
  let rest := l.dropWhile Char.isDigit
  match rest with
  | [] => !intPart.isEmpty
  | '.' :: fr => (!intPart.isEmpty || !fr.isEmpty) && fr.all Char.isDigit
  | _ => false

/-- Python `float(s)` succeeds (see `isFloatBody`). -/
def isPyFloat (s : String) : Bool :=
  match chStrip s.data with
  | '+' :: r => isFloatBody r
  | '-' :: r => isFloatBody r
  | r => isFloatBody r

/-- Shared tail of both create handlers: run `set_ikeys`, then
`sendline('persist\n')` and `expect(r'.*' + STANDARD_PROMPT)`. -/
def createFinish (opensent : String) (ikeys : List (String × String))
    (replies : List (List Char)) : CreateOutcome × List String :=
  let r := setIkeysGo ikeys replies
  let sent := opensent :: r.2.1
  match r.1 with
  | .success =>
    match r.2.2 with
    | [] => (.expectFailed, sent ++ ["persist\n"])
    | pbuf :: _ =>
      if existsLe pbuf.length (fun j => chOccursAt STANDARD_PROMPT pbuf j) then
        (.success, sent ++ ["persist\n"])
      else (.expectFailed, sent ++ ["persist\n"])
  | o => (.ikeysAbort o, sent)

/-- `MORouterViewSet.create` (morouter.py lines 111-169). -/
def moCreate (d : MORequest) (replies : List (List Char)) :
    CreateOutcome × List String :=
  match d.type?, d.order? with
  | some ty, some order =>
    let rtype := pyLower ty
    -- telnet.sendline('morouter -a'); telnet.expect('Adding a new MO Route(.+)\n> ')
    match replies with
    | [] => (.expectFailed, ["morouter -a"])
    | buf :: more =>
      if !addingMatches "Adding a new MO Route".toList INTERACTIVE_PROMPT buf then
        (.expectFailed, ["morouter -a"])
      else
        let withFilters : Except CreateOutcome (List (String × String)) :=
          if rtype ≠ "defaultroute" then
            match d.filters? with
            | none => .error (.missingKeyError (rtype ++ " router requires filters"))
            | some fs => .ok [("type", rtype), ("filters", moFilterJoin fs), ("order", order)]
          else .ok [("type", rtype)]
        match withFilters with
        | .error e => (e, ["morouter -a"])
        | .ok ikeys0 =>
          let connectors := moConnectors d.smppconnectors d.httpconnectors
          if rtype = "randomroundrobinmoroute" then
            if connectors.length < 2 then
              (.multipleValuesRequiredKeyError
                "RandomRoundrobinMORoute requires at least two connectors",
               ["morouter -a"])
            else createFinish "morouter -a"
              (ikeys0 ++ [("connectors", joinSemi connectors)]) more
          else
            match connectors with
            | [c] => createFinish "morouter -a" (ikeys0 ++ [("connector", c)]) more
            | _ => (.missingKeyError "One and only one connector is required",
                    ["morouter -a"])
  | _, _ => (.missingKeyError "Missing parameter: type or order is required", [])

/-- `MTRouterViewSet.create` (mtrouter.py lines 129-208).  The `rate` value
is carried into `ikeys` as its raw request string; Python's float-to-string
rendering of the parsed value is not modelled (no claim reads it back). -/
def mtCreate (d : MTRequest) (replies : List (List Char)) :
    CreateOutcome × List String :=
  match d.type?, d.order?, d.rate? with
  | none, _, _ => (.missingKeyError "Missing parameter: type is required", [])
  | some _, none, _ => (.missingKeyError "Missing parameter: order is required", [])
  | some _, some _, none => (.missingKeyError "Missing parameter: rate is required", [])
  | some ty, some order, some rate =>
    if !isPyFloat rate then
      (.invalidRate "Invalid rate value; must be a float", [])
    else
      let rtype := pyLower ty
      match replies with
      | [] => (.expectFailed, ["mtrouter -a"])
      | buf :: more =>
        if !addingMatches "Adding a new MT Route".toList INTERACTIVE_PROMPT buf then
          (.expectFailed, ["mtrouter -a"])
        else
          let withFilters : Except CreateOutcome (List (String × String)) :=
            if rtype ≠ "defaultroute" then
              match d.filters? with
              | none => .error (.missingKeyError (rtype ++ " router requires filters"))
              | some fs => .ok [("type", rtype), ("filters", mtFilterJoin fs), ("order", order)]
            else .ok [("type", rtype)]
          match withFilters with
          | .error e => (e, ["mtrouter -a"])
          | .ok ikeys0 =>
            let connectors := mtConnectors d.smppconnectors d.httpconnectors
            if rtype = "randomroundrobinmtroute" then
              if connectors.length < 2 then
                (.multipleValuesRequiredKeyError
                  "RandomRoundrobinMTRoute requires at least two connectors",
                 ["mtrouter -a"])
              else createFinish "mtrouter -a"
                (ikeys0 ++ [("connectors", joinSemi connectors), ("rate", rate)]) more
            else
              match connectors with
              | [c] => createFinish "mtrouter -a"
                  (ikeys0 ++ [("connector", c), ("rate", rate)]) more
              | _ => (.missingKeyError
                      "One and only one connector is required for this router type",
                      ["mtrouter -a"])

/-! ### Group listing (groups.py `GroupViewSet.list`, lines 30-50)

`text` is the matched reply of `expect([r'(.+)\n' + STANDARD_PROMPT])`
(`telnet.match.group(0)`), treated as decoded text as in
`MTRouterViewSet._list`. -/

/-- `text.strip().replace("\r", '').split("\n")`. -/
def groupLines (text : String) : List (List Char) :=
  chSplitChar '\n' ((chStrip text.data).filter (fun c => c ≠ '\r'))

/-- Python slice `l[2:-2]`. -/
def pySlice2m2 {α : Type} (l : List α) : List α :=
  (l.drop 2).take (l.length - 4)

/-- One entry of the groups payload: name `g.strip().lstrip('!#')`, status
from `g[1] == '!'`; `none` when `g[1]` would raise `IndexError`. -/
def groupEntry (g : List Char) : Option (String × String) :=
  match g.drop 1 with
  | [] => none
  | c :: _ =>
    some (⟨(chStrip g).dropWhile (fun x => x = '!' || x = '#')⟩,
          if c = '!' then "disabled" else "enabled")

/-- `GroupViewSet.list` body after the expect: `none` models an uncaught
`IndexError` while building an entry. -/
def groupListResult (text : String) : Option (List (String × String)) :=
  let result := groupLines text
  if result.length < 3 then some []
  else (pySlice2m2 result).mapM groupEntry

/-! ### Connection middleware (middleware.py)

`process_request` Docker branch (lines 31-51; the K8s branch, lines 53-78,
has the identical session-opening structure over resolved pod hosts).  Each
configured endpoint is modelled by how its dialogue behaves:
`telnet_request` (spawn, wait `Username:`, send, wait `Password:`, send) can
raise `TelnetUnexpectedResponse` on EOF or `TelnetConnectionTimeout` on
timeout; the subsequent `expect_exact(STANDARD_PROMPT)` raises
`TelnetLoginFailed` on EOF. -/

/-- Behaviour of one endpoint's authentication dialogue. -/
inductive EndpointBehavior
  | ready
  | eofAtPrompt
  | eofInAuth
  | timeoutInAuth
deriving DecidableEq

/-- The exceptions raised by `process_request`. -/
inductive PoolError
  | telnetLoginFailed
  | telnetUnexpectedResponse
  | telnetConnectionTimeout
deriving DecidableEq

/-- The pool handed to the view: `request.telnet` (primary) and
`request.telnet_list` (replicas), as endpoint indices. -/
structure Pool where
  primary : Nat
  replicas : List Nat
deriving DecidableEq

/-- Observable side effects of the open path: which endpoints had
`telnet_request` invoked, which sessions were spawned and authenticated
(and therefore exist), and whether the open path ever closed one (the
source never does). -/
structure OpenTrace where
  attempted : List Nat
  opened : List Nat
  closedAny : Bool
deriving DecidableEq

/-- The per-endpoint loop of the Docker branch of `process_request`. -/
def processRequestGo (i : Nat) (primary? : Option Nat) (reps : List Nat)
    (tr : OpenTrace) : List EndpointBehavior → Except PoolError Pool × OpenTrace
  | [] =>
    match primary? with
    | none => (.error .telnetLoginFailed, tr)
    | some p => (.ok ⟨p, reps⟩, tr)
  | b :: bs =>
    let tr1 : OpenTrace := { tr with attempted := tr.attempted ++ [i] }
    match b with
    | .eofInAuth => (.error .telnetUnexpectedResponse, tr1)
    | .timeoutInAuth => (.error .telnetConnectionTimeout, tr1)
    | .eofAtPrompt =>
      (.error .telnetLoginFailed, { tr1 with opened := tr1.opened ++ [i] })
    | .ready =>
      let tr2 : OpenTrace := { tr1 with opened := tr1.opened ++ [i] }
      match primary? with
      | none => processRequestGo (i + 1) (some i) reps tr2 bs
      | some p => processRequestGo (i + 1) (some p) (reps ++ [i]) tr2 bs

/-- `TelnetConnectionMiddleware.process_request`, Docker branch: open one
session per configured port; the first session to pass
`expect_exact(STANDARD_PROMPT)` becomes `request.telnet`, later ones go to
`request.telnet_list`; `TelnetLoginFailed` when none was assigned. -/
def processRequest (eps : List EndpointBehavior) : Except PoolError Pool × OpenTrace :=
  processRequestGo 0 none [] ⟨[], [], false⟩ eps

/-! ### Connection teardown (middleware.py `process_response`, lines 147-166) -/

/-- One session at teardown time: how many `quit` lines it has been sent,
whether it was force-killed, and whether its `expect_exact(STANDARD_PROMPT)`
after `quit` succeeds. -/
structure CloseSession where
  quitsSent : Nat
  killed : Bool
  gracefulQuit : Bool
deriving DecidableEq

/-- The per-session close block: `sendline('quit')`, wait for the standard
prompt, and on any pexpect exception `kill(9)`.  Total: the exception is
caught inside the block. -/
def closeOne (s : CloseSession) : CloseSession :=
  let s1 : CloseSession := { s with quitsSent := s.quitsSent + 1 }
  if s1.gracefulQuit then s1 else { s1 with killed := true }

/-- `process_response`: close `request.telnet` when present, then every
session of `request.telnet_list`. -/
def processResponseClose (primary : Option CloseSession)
    (replicas : List CloseSession) : Option CloseSession × List CloseSession :=
  (primary.map closeOne, replicas.map closeOne)

/-! ### Concrete inputs used by counterexamples and witnesses -/

/-- A console reply that the `Error:`-before-standard-prompt rule matches but
whose error text also contains the interactive prompt characters `"> "`. -/
def errWithIpBuf : List Char := "Error: bad value> \njcli : ".toList

/-- A padded unknown-key reply: the backend's aligned text keeps internal
whitespace runs. -/
def paddedUnknownBuf : List Char := "x Unknown key:   a  b\n> ".toList

/-- The interactive-mode banner after `morouter -a`. -/
def moAddBuf : List Char := "Adding a new MO Route: (ok: save, ko: exit)\n> ".toList

/-- The interactive-mode banner after `mtrouter -a`. -/
def mtAddBuf : List Char := "Adding a new MT Route: (ok: save, ko: exit)\n> ".toList

/-- A round-robin MO route creation request carrying exactly one connector. -/
def moRoundRobinOneConnector : MORequest :=
  { type? := some "RandomRoundrobinMORoute", order? := some "20",
    filters? := some "f1", smppconnectors := "a", httpconnectors := "" }

/-- A static MT route creation request carrying zero connectors. -/
def mtStaticNoConnector : MTRequest :=
  { type? := some "StaticMTRoute", order? := some "20", rate? := some "0.0",
    filters? := some "f1", smppconnectors := "", httpconnectors := "" }

/-! ## Helper lemmas -/

/-- `classify` returns a matching rule with its capture. -/
theorem classify_matches (rules : List ChRule) (buf : List Char) (i : Nat)
    (c : List Char) (h : classify rules buf = some (i, c)) :
    ∃ r, rules.get? i = some r ∧ r buf = some c := by
  induction rules generalizing i with
  | nil => simp [classify] at h
  | cons r rs ih =>
    unfold classify at h
    cases hr : r buf with
    | some c' =>
      rw [hr] at h
      obtain ⟨rfl, rfl⟩ : 0 = i ∧ c' = c := by
        simpa using h
      exact ⟨r, rfl, hr⟩
    | none =>
      rw [hr] at h
      rw [Option.map_eq_some'] at h
      obtain ⟨⟨j, c'⟩, hj, hpair⟩ := h
      obtain ⟨rfl, rfl⟩ : j + 1 = i ∧ c' = c := by
        simpa using hpair
      obtain ⟨r', hr', hc⟩ := ih j hj
      exact ⟨r', by simpa using hr', hc⟩

/-- Every rule before the one `classify` returns fails to match. -/
theorem classify_earlier_no_match (rules : List ChRule) (buf : List Char)
    (i : Nat) (c : List Char) (h : classify rules buf = some (i, c)) :
    ∀ j r, j < i → rules.get? j = some r → r buf = none := by
  induction rules generalizing i with
  | nil => simp [classify] at h
  | cons r rs ih =>
    unfold classify at h
    cases hr : r buf with
    | some c' =>
      rw [hr] at h
      obtain ⟨rfl, rfl⟩ : 0 = i ∧ c' = c := by simpa using h
      intro j r' hj
      omega
    | none =>
      rw [hr] at h
      rw [Option.map_eq_some'] at h
      obtain ⟨⟨j', c'⟩, hj', hpair⟩ := h
      obtain ⟨rfl, rfl⟩ : j' + 1 = i ∧ c' = c := by simpa using hpair
      intro j r' hj hget
      cases j with
      | zero =>
        simp only [List.get?] at hget
        cases hget
        exact hr
      | succ k =>
        exact ih j' hj' k r' (by omega) (by simpa using hget)

/-- If some rule matches the buffer, `classify` classifies it. -/
theorem classify_total (rules : List ChRule) (buf : List Char) (i : Nat)
    (r : ChRule) (hget : rules.get? i = some r) (hm : r buf ≠ none) :
    classify rules buf ≠ none := by
  induction rules generalizing i with
  | nil => simp at hget
  | cons r0 rs ih =>
    unfold classify
    cases hr0 : r0 buf with
    | some c => simp
    | none =>
      cases i with
      | zero =>
        simp only [List.get?] at hget
        cases hget
        exact absurd hr0 hm
      | succ k =>
        have := ih k (by simpa using hget)
        simp only [ne_eq, Option.map_eq_none']
        exact this

/-! ## Claim C1 -/

/-- C1 counterexample: in the `set_ikeys` rule set, the rule recognizing an
`Error:`-before-standard-prompt state sits at index 4, after the generic
catch-all at index 2, and a buffer matched by that error rule whose text also
contains the interactive prompt is classified by the catch-all (index 2,
i.e. "accepted"), not as an error.  This falsifies the claim's "every rule
recognizing an error prompt state is checked before the generic catch-all"
for the steps of `set_ikeys`. -/
theorem claim_C1_counterexample :
    ruleTail "Error:".toList STANDARD_PROMPT errWithIpBuf ≠ none ∧
    classify setIkeysRules errWithIpBuf = some (2, "Error: bad value".toList) ∧
    setIkeysRules.get? 2 = some (ruleAll INTERACTIVE_PROMPT) ∧
    setIkeysRules.get? 4 = some (ruleTail "Error:".toList STANDARD_PROMPT) :=
  ⟨by decide, by decide, rfl, rfl⟩

/-- C1 (amended): for every rule set and buffered text, the classification
returned is that of the earliest matching rule (all earlier rules fail to
match), and whenever some rule matches, a classification is returned.
However, in the `set_ikeys` key-submission rule set two error-recognizing
rules are placed after the generic catch-all: a buffer matched by the
`Error:`-with-standard-prompt rule whose text also contains the interactive
prompt is returned as the catch-all's index 2. -/
theorem claim_C1_ordering :
    (∀ (rules : List ChRule) (buf : List Char) (i : Nat) (c : List Char),
        classify rules buf = some (i, c) →
        (∃ r, rules.get? i = some r ∧ r buf = some c) ∧
        (∀ j r, j < i → rules.get? j = some r → r buf = none)) ∧
    (∀ (rules : List ChRule) (buf : List Char) (i : Nat) (r : ChRule),
        rules.get? i = some r → r buf ≠ none → classify rules buf ≠ none) ∧
    classify setIkeysRules errWithIpBuf = some (2, "Error: bad value".toList) :=
  ⟨fun rules buf i c h =>
    ⟨classify_matches rules buf i c h, classify_earlier_no_match rules buf i c h⟩,
   classify_total, by decide⟩

/-- C1 witness: the general ordering statement evaluated on the concrete
`set_ikeys` rule set and a concrete buffer. -/
theorem claim_C1_ordering_witness :
    (∃ r, setIkeysRules.get? 2 = some r ∧
        r errWithIpBuf = some "Error: bad value".toList) ∧
    (∀ j r, j < 2 → setIkeysRules.get? j = some r → r errWithIpBuf = none) :=
  claim_C1_ordering.1 setIkeysRules errWithIpBuf 2 "Error: bad value".toList
    (by decide)

/-! ## Claims C3 and C8: the `set_ikeys` abort paths -/

/-- A key/value submission line always contains a space, so it is never the
commit token `"ok"`. -/
theorem keyLine_ne_ok (k v : String) : keyLine k v ≠ "ok" := by
  intro h
  have hm : ' ' ∈ (keyLine k v).data := by
    have hd : (keyLine k v).data = k.data ++ [' '] ++ v.data := by
      simp [keyLine]
    rw [hd]
    simp
  rw [h] at hm
  exact absurd hm (by decide)

/-- Sent-line bookkeeping of the `set_ikeys` loop: a key-step abort
(`UnknownError`, `CanNotModifyError`, or the key-step `JasminSyntaxError`)
never sends the commit token, while the commit step is reached — and `'ok'`
sent — exactly after every key line. -/
theorem setIkeysGo_sent_spec (keys : List (String × String))
    (replies : List (List Char)) (d : String) :
    (((setIkeysGo keys replies).1 = .unknownError d ∨
      (setIkeysGo keys replies).1 = .canNotModifyError d ∨
      (setIkeysGo keys replies).1 = .jasminSyntaxError d) →
      "ok" ∉ (setIkeysGo keys replies).2.1) ∧
    (((setIkeysGo keys replies).1 = .success ∨
      (setIkeysGo keys replies).1 = .commitSyntaxError d) →
      (setIkeysGo keys replies).2.1 =
        keys.map (fun kv => keyLine kv.1 kv.2) ++ ["ok"]) := by
  induction keys generalizing replies with
  | nil =>
    cases replies with
    | nil => simp [setIkeysGo]
    | cons buf more =>
      simp only [setIkeysGo]
      cases h : classify commitRules buf with
      | none => simp
      | some p =>
        obtain ⟨i, c⟩ := p
        by_cases hi : i = 0 <;> simp [hi]
  | cons kv rest ih =>
    obtain ⟨k, v⟩ := kv
    cases replies with
    | nil =>
      simp only [setIkeysGo]
      refine ⟨fun _ => ?_, fun hs => ?_⟩
      · simp only [List.mem_singleton]
        exact Ne.symm (keyLine_ne_ok k v)
      · rcases hs with hs | hs <;> simp at hs
    | cons buf more =>
      simp only [setIkeysGo]
      cases h : classify setIkeysRules buf with
      | none =>
        refine ⟨fun _ => ?_, fun hs => ?_⟩
        · simp only [List.mem_singleton]
          exact Ne.symm (keyLine_ne_ok k v)
        · rcases hs with hs | hs <;> simp at hs
      | some p =>
        obtain ⟨i, c⟩ := p
        by_cases h0 : i = 0
        · subst h0
          refine ⟨fun _ => ?_, fun hs => ?_⟩
          · simp only [reduceIte, List.mem_singleton]
            exact Ne.symm (keyLine_ne_ok k v)
          · simp only [reduceIte] at hs
            rcases hs with hs | hs <;> simp at hs
        · by_cases h1 : i = 1
          · subst h1
            refine ⟨fun _ => ?_, fun hs => ?_⟩
            · simp only [if_neg h0, reduceIte, List.mem_singleton]
              exact Ne.symm (keyLine_ne_ok k v)
            · simp only [if_neg h0, reduceIte] at hs
              rcases hs with hs | hs <;> simp at hs
          · by_cases h34 : i = 3 ∨ i = 4
            · refine ⟨fun _ => ?_, fun hs => ?_⟩
              · simp only [if_neg h0, if_neg h1, if_pos h34, List.mem_singleton]
                exact Ne.symm (keyLine_ne_ok k v)
              · simp only [if_neg h0, if_neg h1, if_pos h34] at hs
                rcases hs with hs | hs <;> simp at hs
            · simp only [if_neg h0, if_neg h1, if_neg h34]
              have hrec := ih more
              rcases hsg : setIkeysGo rest more with ⟨o, sent, left⟩
              simp only [hsg] at hrec ⊢
              refine ⟨fun ho => ?_, fun hs => ?_⟩
              · simp only [List.mem_cons, not_or]
                exact ⟨Ne.symm (keyLine_ne_ok k v), hrec.1 ho⟩
              · simp only [List.map_cons, List.cons_append]
                exact congrArg (List.cons (keyLine k v)) (hrec.2 hs)

/-- Shape of the surfaced detail text per abort kind: the two
`JasminSyntaxError` sites collapse whitespace runs
(`" ".join(... .split())`), while `UnknownError` and `CanNotModifyError`
surface the capture merely `.strip()`-ed. -/
theorem setIkeysGo_detail_spec (keys : List (String × String))
    (replies : List (List Char)) (d : String) :
    ((setIkeysGo keys replies).1 = .jasminSyntaxError d → ∃ c, d = collapseWS c) ∧
    ((setIkeysGo keys replies).1 = .commitSyntaxError d → ∃ c, d = collapseWS c) ∧
    ((setIkeysGo keys replies).1 = .unknownError d → ∃ c, d = pyStrip c) ∧
    ((setIkeysGo keys replies).1 = .canNotModifyError d → ∃ c, d = pyStrip c) := by
  induction keys generalizing replies with
  | nil =>
    cases replies with
    | nil => simp [setIkeysGo]
    | cons buf more =>
      simp only [setIkeysGo]
      cases h : classify commitRules buf with
      | none => simp
      | some p =>
        obtain ⟨i, c⟩ := p
        by_cases hi : i = 0
        · subst hi
          refine ⟨fun hs => ?_, fun hs => ?_, fun hs => ?_, fun hs => ?_⟩ <;>
            simp only [reduceIte] at hs <;> simp at hs
          case _ => exact ⟨⟨c⟩, hs.symm⟩
        · refine ⟨fun hs => ?_, fun hs => ?_, fun hs => ?_, fun hs => ?_⟩ <;>
            simp only [if_neg hi] at hs <;> simp at hs
  | cons kv rest ih =>
    obtain ⟨k, v⟩ := kv
    cases replies with
    | nil => simp [setIkeysGo]
    | cons buf more =>
      simp only [setIkeysGo]
      cases h : classify setIkeysRules buf with
      | none => simp
      | some p =>
        obtain ⟨i, c⟩ := p
        by_cases h0 : i = 0
        · subst h0
          refine ⟨fun hs => ?_, fun hs => ?_, fun hs => ?_, fun hs => ?_⟩ <;>
            simp only [reduceIte] at hs <;> simp at hs
          case _ => exact ⟨⟨c⟩, hs.symm⟩
        · by_cases h1 : i = 1
          · subst h1
            refine ⟨fun hs => ?_, fun hs => ?_, fun hs => ?_, fun hs => ?_⟩ <;>
              simp only [if_neg h0, reduceIte] at hs <;> simp at hs
            case _ => exact ⟨⟨c⟩, hs.symm⟩
          · by_cases h34 : i = 3 ∨ i = 4
            · refine ⟨fun hs => ?_, fun hs => ?_, fun hs => ?_, fun hs => ?_⟩ <;>
                simp only [if_neg h0, if_neg h1, if_pos h34] at hs <;> simp at hs
              case _ => exact ⟨pyStrip ⟨c⟩, hs.symm⟩
            · simp only [if_neg h0, if_neg h1, if_neg h34]
              have hrec := ih more
              rcases hsg : setIkeysGo rest more with ⟨o, sent, left⟩
              simp only [hsg] at hrec ⊢
              exact hrec

/-- C3 counterexample: a draft whose first key submission classifies as
unknown-key aborts with `UnknownError`, and the commit token `'ok'` is never
sent on that abort path — the session is left at the interactive sub-prompt,
falsifying the claim that "the interactive sub-prompt is still exited (a
commit token or equivalent is sent) before the error is surfaced". -/
theorem claim_C3_counterexample :
    (setIkeysRun [("k", "v")] [paddedUnknownBuf]).1 =
      .unknownError "Unknown key:   a  b" ∧
    (setIkeysRun [("k", "v")] [paddedUnknownBuf]).2 = ["k v"] ∧
    "ok" ∉ (setIkeysRun [("k", "v")] [paddedUnknownBuf]).2 := by
  decide

/-- C3 (amended): a key-submission outcome other than "accepted, still
interactive" aborts the whole draft with the corresponding structured error
(`UnknownError` for rule 0, `CanNotModifyError` for rule 1,
`JasminSyntaxError` for rules 3/4) and nothing further is sent: in
particular, no commit token is sent on any key-level abort path.  The commit
token is sent exactly when every key was accepted (on success and on
commit-validation failure). -/
theorem claim_C3_abort_no_commit :
    ∀ (keys : List (String × String)) (replies : List (List Char)) (d : String),
      (((setIkeysRun keys replies).1 = .unknownError d ∨
        (setIkeysRun keys replies).1 = .canNotModifyError d ∨
        (setIkeysRun keys replies).1 = .jasminSyntaxError d) →
        "ok" ∉ (setIkeysRun keys replies).2) ∧
      (((setIkeysRun keys replies).1 = .success ∨
        (setIkeysRun keys replies).1 = .commitSyntaxError d) →
        (setIkeysRun keys replies).2 =
          keys.map (fun kv => keyLine kv.1 kv.2) ++ ["ok"]) ∧
      (∀ k v rest buf more i c,
        keys = (k, v) :: rest → replies = buf :: more →
        classify setIkeysRules buf = some (i, c) →
        ((i = 0 → setIkeysRun keys replies =
            (.unknownError (pyStrip ⟨c⟩), [keyLine k v])) ∧
         (i = 1 → setIkeysRun keys replies =
            (.canNotModifyError (pyStrip ⟨c⟩), [keyLine k v])) ∧
         (i = 3 ∨ i = 4 → setIkeysRun keys replies =
            (.jasminSyntaxError (collapseWS (pyStrip ⟨c⟩)), [keyLine k v])))) := by
  intro keys replies d
  refine ⟨(setIkeysGo_sent_spec keys replies d).1,
          (setIkeysGo_sent_spec keys replies d).2, ?_⟩
  intro k v rest buf more i c hk hr hcl
  subst hk; subst hr
  refine ⟨fun h0 => ?_, fun h1 => ?_, fun h34 => ?_⟩
  · subst h0
    simp [setIkeysRun, setIkeysGo, hcl]
  · subst h1
    simp [setIkeysRun, setIkeysGo, hcl]
  · rcases h34 with rfl | rfl <;> simp [setIkeysRun, setIkeysGo, hcl]

/-- C3 witness: the amended statement evaluated on a concrete aborting draft
and a concrete successful draft. -/
theorem claim_C3_abort_no_commit_witness :
    "ok" ∉ (setIkeysRun [("k", "v")] [paddedUnknownBuf]).2 ∧
    (setIkeysRun [("gid", "g1")]
        ["gid g1\n> ".toList, "ok\njcli : ".toList]).2 =
      [("gid", "g1")].map (fun kv => keyLine kv.1 kv.2) ++ ["ok"] :=
  ⟨(claim_C3_abort_no_commit [("k", "v")] [paddedUnknownBuf]
      "Unknown key:   a  b").1 (Or.inl (by decide)),
   (claim_C3_abort_no_commit [("gid", "g1")]
      ["gid g1\n> ".toList, "ok\njcli : ".toList] "").2.1 (Or.inl (by decide))⟩

/-- C8 counterexample: an `UnknownError` abort surfaces a detail string that
still contains an internal whitespace run (`"key:   a"`), i.e. it is not
whitespace-collapsed — only `.strip()` was applied.  This falsifies the
claim that every classified error outcome's detail has internal whitespace
runs collapsed. -/
theorem claim_C8_counterexample :
    (setIkeysRun [("k", "v")] [paddedUnknownBuf]).1 =
      .unknownError "Unknown key:   a  b" ∧
    collapseWS "Unknown key:   a  b" ≠ "Unknown key:   a  b" := by
  decide

/-- C8 (amended): only the two `JasminSyntaxError` outcomes (key-level
syntax error and commit-validation rejection) surface a detail in the image
of whitespace-collapsing; the `UnknownError` and `CanNotModifyError`
outcomes surface the capture merely stripped of surrounding whitespace. -/
theorem claim_C8_detail_whitespace :
    ∀ (keys : List (String × String)) (replies : List (List Char)) (d : String),
      ((setIkeysRun keys replies).1 = .jasminSyntaxError d →
        ∃ c, d = collapseWS c) ∧
      ((setIkeysRun keys replies).1 = .commitSyntaxError d →
        ∃ c, d = collapseWS c) ∧
      ((setIkeysRun keys replies).1 = .unknownError d →
        ∃ c, d = pyStrip c) ∧
      ((setIkeysRun keys replies).1 = .canNotModifyError d →
        ∃ c, d = pyStrip c) :=
  fun keys replies d => setIkeysGo_detail_spec keys replies d

/-- C8 witness: a concrete commit-validation rejection whose surfaced detail
is the whitespace-collapse of a capture. -/
theorem claim_C8_detail_whitespace_witness :
    ∃ c, "this object syntax is invalid" = collapseWS c :=
  (claim_C8_detail_whitespace [("gid", "g1")]
      ["gid g1\n> ".toList, "ok this  object syntax is invalid\n> ".toList]
      "this object syntax is invalid").2.1 (by decide)

/-! ## Claim C2 -/

/-- C2 counterexample: a round-robin MO route creation request with exactly
one connector does fail with the client-input error, but only after the
route-add command `morouter -a` has been sent and the interactive prompt
awaited — the sent-line log is `["morouter -a"]`, not `[]`, falsifying "no
line is sent to the session and no interactive object session is opened". -/
theorem claim_C2_counterexample :
    moCreate moRoundRobinOneConnector [moAddBuf] =
      (.multipleValuesRequiredKeyError
        "RandomRoundrobinMORoute requires at least two connectors",
       ["morouter -a"]) ∧
    (["morouter -a"] : List String) ≠ [] := by
  refine ⟨by decide, by decide⟩

/-- C2 (amended): a round-robin route creation request with fewer than 2
connector references, or any other variant with a connector count different
from 1, fails with the corresponding client-input error
(`MultipleValuesRequiredKeyError` / `MissingKeyError`) before any key is
submitted — `set_ikeys` is never reached — but only after the route-add
command has been sent and the interactive prompt awaited: the only line
sent is `morouter -a` / `mtrouter -a`, and the session is left at the
interactive sub-prompt.  Both the MO and the MT handler behave this way. -/
theorem claim_C2_cardinality :
    (∀ (d : MORequest) (ty order fs : String) (buf : List Char)
        (more : List (List Char)),
      d.type? = some ty → d.order? = some order → d.filters? = some fs →
      pyLower ty = "randomroundrobinmoroute" →
      addingMatches "Adding a new MO Route".toList INTERACTIVE_PROMPT buf = true →
      (moConnectors d.smppconnectors d.httpconnectors).length < 2 →
      moCreate d (buf :: more) =
        (.multipleValuesRequiredKeyError
          "RandomRoundrobinMORoute requires at least two connectors",
         ["morouter -a"])) ∧
    (∀ (d : MORequest) (ty order : String) (buf : List Char)
        (more : List (List Char)),
      d.type? = some ty → d.order? = some order →
      pyLower ty ≠ "randomroundrobinmoroute" →
      (pyLower ty = "defaultroute" ∨ ∃ fs, d.filters? = some fs) →
      addingMatches "Adding a new MO Route".toList INTERACTIVE_PROMPT buf = true →
      (moConnectors d.smppconnectors d.httpconnectors).length ≠ 1 →
      moCreate d (buf :: more) =
        (.missingKeyError "One and only one connector is required",
         ["morouter -a"])) ∧
    (∀ (d : MTRequest) (ty order rate fs : String) (buf : List Char)
        (more : List (List Char)),
      d.type? = some ty → d.order? = some order → d.rate? = some rate →
      d.filters? = some fs → isPyFloat rate = true →
      pyLower ty = "randomroundrobinmtroute" →
      addingMatches "Adding a new MT Route".toList INTERACTIVE_PROMPT buf = true →
      (mtConnectors d.smppconnectors d.httpconnectors).length < 2 →
      mtCreate d (buf :: more) =
        (.multipleValuesRequiredKeyError
          "RandomRoundrobinMTRoute requires at least two connectors",
         ["mtrouter -a"])) ∧
    (∀ (d : MTRequest) (ty order rate : String) (buf : List Char)
        (more : List (List Char)),
      d.type? = some ty → d.order? = some order → d.rate? = some rate →
      isPyFloat rate = true →
      pyLower ty ≠ "randomroundrobinmtroute" →
      (pyLower ty = "defaultroute" ∨ ∃ fs, d.filters? = some fs) →
      addingMatches "Adding a new MT Route".toList INTERACTIVE_PROMPT buf = true →
      (mtConnectors d.smppconnectors d.httpconnectors).length ≠ 1 →
      mtCreate d (buf :: more) =
        (.missingKeyError
          "One and only one connector is required for this router type",
         ["mtrouter -a"])) := by
  refine ⟨?_, ?_, ?_, ?_⟩
  · intro d ty order fs buf more htype horder hfs hrr hadd hlen
    obtain ⟨ty?, ord?, fl?, sc, hc⟩ := d
    simp only at htype horder hfs hlen
    subst htype; subst horder; subst hfs
    simp only [moCreate, hadd]
    simp [hrr, hlen]
  · intro d ty order buf more htype horder hne hdf hadd hlen
    obtain ⟨ty?, ord?, fl?, sc, hc⟩ := d
    simp only at htype horder hlen
    subst htype; subst horder
    rcases hconn : moConnectors sc hc with _ | ⟨a, _ | ⟨b, t⟩⟩
    · by_cases hdef : pyLower ty = "defaultroute"
      · simp only [moCreate, hadd]
        simp [hdef, hconn]
      · rcases hdf with hdf | ⟨fs, hf⟩
        · exact absurd hdf hdef
        · simp only at hf
          subst hf
          simp only [moCreate, hadd]
          simp [hne, hdef, hconn]
    · rw [hconn] at hlen
      simp at hlen
    · by_cases hdef : pyLower ty = "defaultroute"
      · simp only [moCreate, hadd]
        simp [hdef, hconn]
      · rcases hdf with hdf | ⟨fs, hf⟩
        · exact absurd hdf hdef
        · simp only at hf
          subst hf
          simp only [moCreate, hadd]
          simp [hne, hdef, hconn]
  · intro d ty order rate fs buf more htype horder hrate hfs hfl hrr hadd hlen
    obtain ⟨ty?, ord?, rt?, fl?, sc, hc⟩ := d
    simp only at htype horder hrate hfs hlen
    subst htype; subst horder; subst hrate; subst hfs
    simp only [mtCreate, hfl, hadd]
    simp [hrr, hlen]
  · intro d ty order rate buf more htype horder hrate hfl hne hdf hadd hlen
    obtain ⟨ty?, ord?, rt?, fl?, sc, hc⟩ := d
    simp only at htype horder hrate hlen
    subst htype; subst horder; subst hrate
    rcases hconn : mtConnectors sc hc with _ | ⟨a, _ | ⟨b, t⟩⟩
    · by_cases hdef : pyLower ty = "defaultroute"
      · simp only [mtCreate, hfl, hadd]
        simp [hdef, hconn]
      · rcases hdf with hdf | ⟨fs, hf⟩
        · exact absurd hdf hdef
        · simp only at hf
          subst hf
          simp only [mtCreate, hfl, hadd]
          simp [hne, hdef, hconn]
    · rw [hconn] at hlen
      simp at hlen
    · by_cases hdef : pyLower ty = "defaultroute"
      · simp only [mtCreate, hfl, hadd]
        simp [hdef, hconn]
      · rcases hdf with hdf | ⟨fs, hf⟩
        · exact absurd hdf hdef
        · simp only at hf
          subst hf
          simp only [mtCreate, hfl, hadd]
          simp [hne, hdef, hconn]

/-- C2 witness: the amended statement evaluated on a concrete round-robin MO
request with one connector and a concrete static MT request with no
connector. -/
theorem claim_C2_cardinality_witness :
    moCreate moRoundRobinOneConnector [moAddBuf] =
      (.multipleValuesRequiredKeyError
        "RandomRoundrobinMORoute requires at least two connectors",
       ["morouter -a"]) ∧
    mtCreate mtStaticNoConnector [mtAddBuf] =
      (.missingKeyError
        "One and only one connector is required for this router type",
       ["mtrouter -a"]) :=
  ⟨claim_C2_cardinality.1 moRoundRobinOneConnector "RandomRoundrobinMORoute"
      "20" "f1" moAddBuf [] rfl rfl rfl (by decide) (by decide) (by decide),
   claim_C2_cardinality.2.2.2 mtStaticNoConnector "StaticMTRoute" "20" "0.0"
      mtAddBuf [] rfl rfl rfl (by decide) (by decide)
      (Or.inr ⟨"f1", rfl⟩) (by decide) (by decide)⟩

/-! ## Claim C4 -/

/-- C4 counterexample: filter reference lists are not normalized the way the
claim states.  On the claim's own example input `" a, b ,,c "`, the MO
handler joins the raw comma-split items (`" a; b ;;c "`) and the MT handler
trims each item but keeps the empty one (`"a;b;;c"`): neither equals the
claimed `"a;b;c"`. -/
theorem claim_C4_counterexample :
    moFilterJoin " a, b ,,c " = " a; b ;;c " ∧
    mtFilterJoin " a, b ,,c " = "a;b;;c" ∧
    moFilterJoin " a, b ,,c " ≠ "a;b;c" ∧
    mtFilterJoin " a, b ,,c " ≠ "a;b;c" := by
  decide

/-- C4 (amended): connector reference lists are normalized — every emitted
composite is `tag(item)` for a trimmed, non-empty item of the comma-split
input, so `normalize(" a, b ,,c ")` yields exactly `a`, `b`, `c` — and
joining connector references yields `"smpps(a);http(b)"` in the MO handler
and `"smppc(a);http(b)"` in the MT handler.  Filter lists are not
normalized: the MO handler joins the raw comma-split items with `';'` and
the MT handler trims each item but keeps empty items. -/
theorem claim_C4_normalization :
    (∀ (tag s x : String), x ∈ connectorItems tag s →
      ∃ c, c ∈ chSplitChar ',' s.data ∧ chStrip c ≠ [] ∧
        x = tag ++ "(" ++ String.mk (chStrip c) ++ ")") ∧
    connectorItems "smpps" " a, b ,,c " = ["smpps(a)", "smpps(b)", "smpps(c)"] ∧
    joinSemi (moConnectors "a" "b") = "smpps(a);http(b)" ∧
    joinSemi (mtConnectors "a" "b") = "smppc(a);http(b)" ∧
    moFilterJoin " a, b ,,c " = " a; b ;;c " ∧
    mtFilterJoin " a, b ,,c " = "a;b;;c" := by
  refine ⟨?_, by decide, by decide, by decide, by decide, by decide⟩
  intro tag s x hx
  simp only [connectorItems, List.mem_filterMap] at hx
  obtain ⟨c, hc, hfc⟩ := hx
  by_cases he : (chStrip c).isEmpty
  · simp [he] at hfc
  · simp only [he, if_neg, Bool.false_eq_true, not_false_eq_true, if_false] at hfc
    refine ⟨c, hc, ?_, ?_⟩
    · intro hnil
      rw [hnil] at he
      exact he rfl
    · exact (Option.some.inj hfc).symm

/-- C4 witness: the normalization statement evaluated on the claim's example
input and a concrete emitted composite. -/
theorem claim_C4_normalization_witness :
    ∃ c, c ∈ chSplitChar ',' " a, b ,,c ".data ∧ chStrip c ≠ [] ∧
      "smpps(a)" = "smpps" ++ "(" ++ String.mk (chStrip c) ++ ")" :=
  claim_C4_normalization.1 "smpps" " a, b ,,c " "smpps(a)" (by decide)

/-! ## Claim C5 -/

/-- C5: after a successful primary mutation and persist, replica reload
propagation never surfaces an error: `sync_conf_instances` is total, sends
the reload directive to every replica regardless of earlier failures (one
`'load\n'` per replica), records one log entry per failing replica, and the
caller's success payload is returned unchanged. -/
theorem claim_C5_replica_sync :
    ∀ {α : Type} (payload : α) (replicas : List Bool),
      (propagateAfterSuccess payload replicas).1 = payload ∧
      (syncConfInstances replicas).1 = List.replicate replicas.length "load\n" ∧
      (syncConfInstances replicas).2.length =
        (replicas.filter (fun b => !b)).length := by
  intro α payload replicas
  refine ⟨rfl, ?_, ?_⟩
  · induction replicas with
    | nil => rfl
    | cons r rs ih =>
      rcases hsg : syncConfInstances rs with ⟨sent, logs⟩
      rw [hsg] at ih
      cases r <;>
        simp [syncConfInstances, reloadReplica, hsg, List.replicate_succ] <;>
        simpa using ih
  · induction replicas with
    | nil => rfl
    | cons r rs ih =>
      rcases hsg : syncConfInstances rs with ⟨sent, logs⟩
      rw [hsg] at ih
      cases r <;>
        simp [syncConfInstances, reloadReplica, hsg, List.filter] <;>
        simpa using ih

/-! ## Claims C6 and C10: pool opening -/

/-- When a primary is already designated and every remaining endpoint
reaches Ready, the open loop succeeds, appending the remaining endpoint
indices as replicas. -/
theorem processRequestGo_all_ready (bs : List EndpointBehavior) :
    ∀ (i p : Nat) (reps : List Nat) (tr : OpenTrace),
      (∀ b ∈ bs, b = .ready) →
      (processRequestGo i (some p) reps tr bs).1 =
        .ok ⟨p, reps ++ List.range' i bs.length⟩ := by
  induction bs with
  | nil =>
    intro i p reps tr _
    simp [processRequestGo]
  | cons b bs ih =>
    intro i p reps tr hall
    have hb : b = .ready := hall b (List.mem_cons_self b bs)
    subst hb
    have hall' : ∀ x ∈ bs, x = EndpointBehavior.ready :=
      fun x hx => hall x (List.mem_cons_of_mem _ hx)
    simp only [processRequestGo]
    rw [ih (i + 1) p (reps ++ [i]) _ hall']
    simp [List.length_cons, List.range'_succ, List.append_assoc]

/-- If the open loop returns a pool, every endpoint it walked was Ready. -/
theorem processRequestGo_ok_ready (bs : List EndpointBehavior) :
    ∀ (i : Nat) (p? : Option Nat) (reps : List Nat) (tr : OpenTrace)
      (pool : Pool),
      (processRequestGo i p? reps tr bs).1 = .ok pool →
      ∀ b ∈ bs, b = .ready := by
  induction bs with
  | nil => intro i p? reps tr pool _ b hb; simp at hb
  | cons b bs ih =>
    intro i p? reps tr pool h x hx
    cases b with
    | ready =>
      rcases List.mem_cons.mp hx with rfl | hx'
      · rfl
      · cases p? with
        | none => exact ih (i + 1) (some i) reps _ pool h x hx'
        | some p => exact ih (i + 1) (some p) (reps ++ [i]) _ pool h x hx'
    | eofAtPrompt => simp [processRequestGo] at h
    | eofInAuth => simp [processRequestGo] at h
    | timeoutInAuth => simp [processRequestGo] at h

/-- Walking Ready endpoints up to an endpoint whose prompt wait hits EOF:
the loop raises `TelnetLoginFailed` there, having attempted and opened
exactly the endpoints up to and including the failing one, and closing
nothing. -/
theorem processRequestGo_eof (pre : List EndpointBehavior) :
    ∀ (post : List EndpointBehavior) (i : Nat) (p? : Option Nat)
      (reps : List Nat) (tr : OpenTrace),
      (∀ b ∈ pre, b = .ready) →
      processRequestGo i p? reps tr (pre ++ .eofAtPrompt :: post) =
        (.error .telnetLoginFailed,
         ⟨tr.attempted ++ List.range' i (pre.length + 1),
          tr.opened ++ List.range' i (pre.length + 1), tr.closedAny⟩) := by
  induction pre with
  | nil =>
    intro post i p? reps tr _
    simp [processRequestGo, List.range']
  | cons b pre ih =>
    intro post i p? reps tr hall
    have hb : b = .ready := hall b (List.mem_cons_self b pre)
    subst hb
    have hall' : ∀ x ∈ pre, x = EndpointBehavior.ready :=
      fun x hx => hall x (List.mem_cons_of_mem _ hx)
    cases p? with
    | none =>
      simp only [List.cons_append, processRequestGo, List.append_eq]
      rw [ih post (i + 1) (some i) reps _ hall']
      simp [List.length_cons, List.range'_succ, List.append_assoc]
    | some p =>
      simp only [List.cons_append, processRequestGo, List.append_eq]
      rw [ih post (i + 1) (some p) (reps ++ [i]) _ hall']
      simp [List.length_cons, List.range'_succ, List.append_assoc]

/-- C6 counterexample: with endpoints `[Ready, EOF-at-prompt]` the first
session authenticates (both endpoints are attempted and opened), yet the
whole pool-open raises `TelnetLoginFailed` and no pool is returned —
falsifying "fails entirely ... when zero sessions authenticate
successfully". -/
theorem claim_C6_counterexample :
    (processRequest [.ready, .eofAtPrompt]).1 = .error .telnetLoginFailed ∧
    (processRequest [.ready, .eofAtPrompt]).2.opened = [0, 1] ∧
    (processRequest [.ready, .eofAtPrompt]).2.attempted = [0, 1] :=
  ⟨rfl, rfl, rfl⟩

/-- C6 (amended): pool-open returns a pool precisely when the endpoint list
is non-empty and every endpoint authenticates to Ready; the pool then has
exactly one primary — the first endpoint — and the remaining endpoints, in
order, as replicas.  Any endpoint failure aborts the whole open (no partial
pool); in particular, when zero endpoints reach Ready the operation fails
(with `TelnetLoginFailed` on an empty list or an EOF at the prompt wait,
and the corresponding transport error during authentication). -/
theorem claim_C6_pool_open :
    (∀ (eps : List EndpointBehavior),
      eps ≠ [] → (∀ b ∈ eps, b = .ready) →
      (processRequest eps).1 = .ok ⟨0, List.range' 1 (eps.length - 1)⟩) ∧
    (∀ (eps : List EndpointBehavior) (pool : Pool),
      (processRequest eps).1 = .ok pool →
      (∀ b ∈ eps, b = .ready) ∧ eps ≠ [] ∧ pool.primary = 0 ∧
        pool.replicas = List.range' 1 (eps.length - 1)) ∧
    (∀ (eps : List EndpointBehavior),
      (∀ b ∈ eps, b ≠ .ready) → ∃ e, (processRequest eps).1 = .error e) := by
  refine ⟨?_, ?_, ?_⟩
  · intro eps hne hall
    cases eps with
    | nil => exact absurd rfl hne
    | cons b bs =>
      have hb : b = .ready := hall b (List.mem_cons_self b bs)
      subst hb
      have hall' : ∀ x ∈ bs, x = EndpointBehavior.ready :=
        fun x hx => hall x (List.mem_cons_of_mem _ hx)
      simp only [processRequest, processRequestGo]
      rw [processRequestGo_all_ready bs 1 0 [] _ hall']
      simp
  · intro eps pool h
    have hall : ∀ b ∈ eps, b = .ready :=
      processRequestGo_ok_ready eps 0 none [] ⟨[], [], false⟩ pool h
    refine ⟨hall, ?_, ?_, ?_⟩
    · intro hnil
      subst hnil
      simp [processRequest, processRequestGo] at h
    all_goals {
      cases eps with
      | nil => simp [processRequest, processRequestGo] at h
      | cons b bs =>
        have hb : b = .ready := hall b (List.mem_cons_self b bs)
        subst hb
        have hall' : ∀ x ∈ bs, x = EndpointBehavior.ready :=
          fun x hx => hall x (List.mem_cons_of_mem _ hx)
        simp only [processRequest, processRequestGo] at h
        rw [processRequestGo_all_ready bs 1 0 [] _ hall'] at h
        obtain rfl : pool = ⟨0, [] ++ List.range' 1 bs.length⟩ := by
          simpa using h.symm
        simp
    }
  · intro eps hall
    cases eps with
    | nil => exact ⟨.telnetLoginFailed, rfl⟩
    | cons b bs =>
      cases b with
      | ready => exact absurd rfl (hall .ready (List.mem_cons_self _ _))
      | eofAtPrompt => exact ⟨.telnetLoginFailed, rfl⟩
      | eofInAuth => exact ⟨.telnetUnexpectedResponse, rfl⟩
      | timeoutInAuth => exact ⟨.telnetConnectionTimeout, rfl⟩

/-- C6 witness: the amended statement evaluated on a concrete all-Ready
endpoint list. -/
theorem claim_C6_pool_open_witness :
    (processRequest [.ready, .ready]).1 = .ok ⟨0, List.range' 1 1⟩ :=
  claim_C6_pool_open.1 [.ready, .ready] (by decide) (by decide)

/-- C10: during pool-open, an EOF before the ready prompt at any endpoint
makes the whole open raise `TelnetLoginFailed` immediately: endpoints after
the failing one are never attempted, the sessions already opened (including
the failing endpoint's authenticated connection) stay open, and the open
path closes nothing. -/
theorem claim_C10_eof_abort :
    ∀ (pre post : List EndpointBehavior),
      (∀ b ∈ pre, b = .ready) →
      processRequest (pre ++ .eofAtPrompt :: post) =
        (.error .telnetLoginFailed,
         ⟨List.range' 0 (pre.length + 1), List.range' 0 (pre.length + 1),
          false⟩) := by
  intro pre post hall
  have h := processRequestGo_eof pre post 0 none [] ⟨[], [], false⟩ hall
  simpa [processRequest] using h

/-- C10 witness: a three-endpoint list whose middle endpoint EOFs at the
prompt: only the first two endpoints are attempted, both sessions stay
open, nothing is closed. -/
theorem claim_C10_eof_abort_witness :
    processRequest [.ready, .eofAtPrompt, .ready] =
      (.error .telnetLoginFailed,
       ⟨List.range' 0 2, List.range' 0 2, false⟩) :=
  claim_C10_eof_abort [.ready] [.ready] (by decide)

/-! ## Claim C7 -/

/-- C7: a group-list reply whose text — stripped, carriage returns removed,
split on newlines — has fewer than 3 lines yields the empty result; the
branch boundary is exactly 3 lines: at 3 or more lines the slice-and-parse
path runs instead. -/
theorem claim_C7_empty_listing :
    (∀ text : String, (groupLines text).length < 3 →
      groupListResult text = some []) ∧
    (∀ text : String, 3 ≤ (groupLines text).length →
      groupListResult text = (pySlice2m2 (groupLines text)).mapM groupEntry) := by
  constructor
  · intro text h
    simp [groupListResult, h]
  · intro text h
    have h' : ¬((groupLines text).length < 3) := Nat.not_lt.mpr h
    simp [groupListResult, h']

/-- C7 witness: a one-line reply (an empty backend's listing) yields the
empty groups payload, and a three-line reply takes the parsing branch
(which on a header/footer-only reply also yields the empty payload). -/
theorem claim_C7_empty_listing_witness :
    groupListResult "Total Groups: 0" = some [] ∧
    groupListResult "#Groups:\r\n#g1\r\nTotal Groups: 1" =
      (pySlice2m2 (groupLines "#Groups:\r\n#g1\r\nTotal Groups: 1")).mapM
        groupEntry :=
  ⟨claim_C7_empty_listing.1 "Total Groups: 0" (by decide),
   claim_C7_empty_listing.2 "#Groups:\r\n#g1\r\nTotal Groups: 1" (by decide)⟩

/-! ## Claim C9 -/

/-- C9 counterexample: the close block has no idempotence guard — running it
a second time on an already-closed session sends `quit` again (the quit
count goes from 1 to 2), falsifying "a second close produces no error and
no duplicate quit send". -/
theorem claim_C9_counterexample :
    (closeOne (closeOne ⟨0, false, true⟩)).quitsSent = 2 ∧
    (closeOne (closeOne ⟨0, false, true⟩)).quitsSent ≠
      (closeOne ⟨0, false, true⟩).quitsSent := by
  refine ⟨rfl, by decide⟩

/-- C9 (amended): teardown is best-effort and total — for every session the
close block sends exactly one `quit`, force-kills the connection exactly
when the prompt wait after `quit` fails, and never raises; during response
processing the primary and each replica are each closed exactly once.  But
close is not idempotent: a second invocation sends `quit` again. -/
theorem claim_C9_close_best_effort :
    ∀ (p : CloseSession) (rs : List CloseSession),
      (processResponseClose (some p) rs).1 = some (closeOne p) ∧
      ((processResponseClose (some p) rs).2.map CloseSession.quitsSent =
        rs.map (fun s => s.quitsSent + 1)) ∧
      (closeOne p).quitsSent = p.quitsSent + 1 ∧
      ((closeOne p).killed = (p.killed || !p.gracefulQuit)) := by
  intro p rs
  refine ⟨rfl, ?_, ?_, ?_⟩
  · show (rs.map closeOne).map CloseSession.quitsSent = _
    rw [List.map_map]
    refine List.map_congr_left ?_
    intro s _
    by_cases hg : s.gracefulQuit <;> simp [closeOne, hg, Function.comp]
  · by_cases hg : p.gracefulQuit <;> simp [closeOne, hg]
  · by_cases hg : p.gracefulQuit <;> simp [closeOne, hg]

end JasminApi
